import Mathlib

/-!
Verification of the backend-selection and configuration-validation core of
the uvc-gadget application, shallowly embedded from `src/main.c` and
`include/uvcgadget/libcamera-source.h` (built with `HAVE_LIBCAMERA`, the
configuration under which every camera option of the spec exists).

Modelling conventions:
* C `float` values reaching the validator are modelled by `FVal`: either NaN
  (the initialisation sentinel of `camera_arguments`) or a finite value
  carried as a rational.  The validator only ever compares a parsed value
  against the exactly-representable constants 0, 32, -1, 1 and 16, and IEEE
  comparison of representable values agrees with rational comparison, while
  every comparison involving NaN is false; `FVal.flt` captures exactly this.
* `sscanf` is C-library code outside this repository; an option's text is
  carried together with the abstract result of its `sscanf` call (`none`
  when fewer values than requested were assigned).  Per C99, the token
  `nan` is a valid `%f` input assigning a quiet NaN.
* `fprintf(stderr, ...)` / `printf(...)` calls are recorded as tagged
  messages on a channel; each tag carries the data its format string prints.
* External collaborators (`configfs_parse_uvc_function`, the five
  `*_create` constructors, `uvc_stream_new`) succeed or fail according to
  an environment record; the model records which constructors were invoked
  and an acquire/release trace of the four process resources.
-/

namespace UvcGadget

/-- Model of a C `float` as consumed by the option validator in `main.c`:
NaN (the `0.f / 0.f` sentinel) or a finite value modelled as a rational. -/
inductive FVal where
  | nan
  | val (q : ℚ)
  deriving DecidableEq

/-- IEEE-754 `<` on the float model: any comparison involving NaN is false. -/
def FVal.flt : FVal → FVal → Bool
  | .val a, .val b => decide (a < b)
  | _, _ => false

/-- Range constant from `main.c` line 68. -/
def camera_valid_col_gain_range : ℚ × ℚ := (0, 32)

/-- Range constant from `main.c` line 69. -/
def camera_valid_lens_pos_range : ℚ × ℚ := (0, 32)

/-- Range constant from `main.c` line 70. -/
def camera_valid_brightness_range : ℚ × ℚ := (-1, 1)

/-- Range constant from `main.c` line 71. -/
def camera_valid_contrast_range : ℚ × ℚ := (0, 32)

/-- Range constant from `main.c` line 72. -/
def camera_valid_saturation_range : ℚ × ℚ := (0, 32)

/-- Range constant from `main.c` line 73. -/
def camera_valid_sharpness_range : ℚ × ℚ := (0, 16)

/-- Allow-list from `main.c` lines 41-45. -/
def camera_valid_af_range_modes : List String := ["normal", "macro"]

/-- Allow-list from `main.c` lines 46-50. -/
def camera_valid_af_speed_modes : List String := ["normal", "fast"]

/-- Allow-list from `main.c` lines 51-60. -/
def camera_valid_awb_modes : List String :=
  ["auto", "incandescent", "tungsten", "fluorescent", "indoor", "daylight", "cloudy"]

/-- Allow-list from `main.c` lines 61-67; `sport` is a literal member. -/
def camera_valid_exposure_modes : List String :=
  ["normal", "short", "sport", "long"]

/-- `is_camera_mode_valid` from `main.c` lines 33-40: linear scan with
`strcmp` against a NULL-terminated list of modes. -/
def is_camera_mode_valid (mode : String) (valid_modes : List String) : Bool :=
  valid_modes.any (fun m => mode == m)

/-- `struct camera_arguments` from `libcamera-source.h` lines 18-36.
C `NULL` string pointers become `none`; the `int` flag becomes `Bool`. -/
structure camera_arguments where
  af_range_mode : Option String
  af_speed_mode : Option String
  awb_mode : Option String
  exposure_mode : Option String
  colour_gain_r : FVal
  colour_gain_b : FVal
  lens_position : FVal
  brightness : FVal
  contrast : FVal
  saturation : FVal
  sharpness : FVal
  debug_report_enabled : Bool
  deriving DecidableEq

/-- The initialiser of `camera_arguments_opts` in `main.c` lines 167-180:
all mode strings NULL, all numeric fields the NaN sentinel, flag off. -/
def camera_arguments_opts : camera_arguments :=
  ⟨none, none, none, none, .nan, .nan, .nan, .nan, .nan, .nan, .nan, false⟩

/-- One parsed command-line option, i.e. one case label of the `switch` in
`main.c` lines 229-392.  Numeric options carry the raw `optarg` text and
the abstract result of their `sscanf` call (`none`: fewer values assigned
than requested).  `unknown` is getopt's `?` reaching the `default` label. -/
inductive CliOpt where
  | camera (s : String)
  | af_range (s : String)
  | af_speed (s : String)
  | lens_pos (raw : String) (p : Option FVal)
  | awb_opt (s : String)
  | col_gain (raw : String) (p : Option (FVal × FVal))
  | exp_mode (s : String)
  | brightness (raw : String) (p : Option FVal)
  | contrast (raw : String) (p : Option FVal)
  | saturation (raw : String) (p : Option FVal)
  | sharpness (raw : String) (p : Option FVal)
  | dbg_rprt
  | device (s : String)
  | image (s : String)
  | slideshow (s : String)
  | help
  | unknown
  deriving DecidableEq

/-- Output channel of a diagnostic: `printf` writes to `stdout`,
`fprintf(stderr, ...)` to `stderr`. -/
inductive Chan where
  | stdout
  | stderr
  deriving DecidableEq

/-- Tagged diagnostic messages; each constructor carries the data its
C format string interpolates.
* `invalid_mode opt value`: `"Invalid --<opt> value: <value>"`.
* `invalid_format opt raw`: `"Invalid --<opt> value - invalid format: <raw>"`.
* `out_of_range opt lo hi v`: `"Invalid --<opt> value - out of range [lo .. hi]: v"`.
* `out_of_range_pair opt lo hi raw`: the colour-gains range message, which
  prints the two bounds twice and the raw text.
* `usage_text`: the full `usage()` dump of `main.c` lines 76-151 (which
  lists every allow-list and range).
* `fc_fail`: `"Failed to identify function configuration"` (a `printf`).
* `conflict_line1`: `"Both capture device and still image specified"` (a `printf`).
* `conflict_line2`: `"Please specify only one"` (a `printf`). -/
inductive Msg where
  | invalid_mode (opt : String) (value : String)
  | invalid_format (opt : String) (raw : String)
  | out_of_range (opt : String) (lo hi : ℚ) (value : FVal)
  | out_of_range_pair (opt : String) (lo hi : ℚ) (raw : String)
  | usage_text
  | fc_fail
  | conflict_line1
  | conflict_line2
  deriving DecidableEq

/-- An emitted line bundle: channel and tagged message. -/
abbrev Out := Chan × Msg

/-- State mutated by the option loop of `main`: the selection pointers and
the camera control set. -/
structure OptState where
  camera : Option String
  cam_args : camera_arguments
  cap_device : Option String
  img_path : Option String
  slideshow_dir : Option String
  deriving DecidableEq

/-- The state of `main`'s locals on entry to the option loop
(`main.c` lines 164-184). -/
def initOptState : OptState :=
  ⟨none, camera_arguments_opts, none, none, none⟩

/-- The repeated single-float option pattern of `main.c` (cases
`OPT_LENS_POS`, `OPT_BRIGHTNS`, `OPT_CONTRAST`, `OPT_SATURATN`,
`OPT_SHRPNESS`): `sscanf` must assign exactly one float, then the value is
rejected when `value < range[0] || value > range[1]` under IEEE comparison;
each rejection prints its message and the usage text to stderr and exits 1. -/
def check_float_opt (optname : String) (range : ℚ × ℚ) (raw : String)
    (p : Option FVal) : Except (Nat × List Out) FVal :=
  match p with
  | none =>
    .error (1, [(.stderr, .invalid_format optname raw), (.stderr, .usage_text)])
  | some value =>
    if FVal.flt value (.val range.1) || FVal.flt (.val range.2) value then
      .error (1, [(.stderr, .out_of_range optname range.1 range.2 value),
                  (.stderr, .usage_text)])
    else
      .ok value

/-- One iteration of the `switch` in `main.c` lines 229-392.  An `error`
result is an early `return` from `main` carrying the exit status and the
lines printed on the way out; an `ok` result is the updated locals. -/
def processOpt (s : OptState) : CliOpt → Except (Nat × List Out) OptState
  | .camera c => .ok { s with camera := some c }
  | .af_range m =>
    if is_camera_mode_valid m camera_valid_af_range_modes then
      .ok { s with cam_args := { s.cam_args with af_range_mode := some m } }
    else
      .error (1, [(.stderr, .invalid_mode "autofocus-range" m), (.stderr, .usage_text)])
  | .af_speed m =>
    if is_camera_mode_valid m camera_valid_af_speed_modes then
      .ok { s with cam_args := { s.cam_args with af_speed_mode := some m } }
    else
      .error (1, [(.stderr, .invalid_mode "autofocus-speed" m), (.stderr, .usage_text)])
  | .lens_pos raw p =>
    match check_float_opt "lens-position" camera_valid_lens_pos_range raw p with
    | .error e => .error e
    | .ok v => .ok { s with cam_args := { s.cam_args with lens_position := v } }
  | .awb_opt m =>
    if is_camera_mode_valid m camera_valid_awb_modes then
      .ok { s with cam_args := { s.cam_args with awb_mode := some m } }
    else
      .error (1, [(.stderr, .invalid_mode "awb" m), (.stderr, .usage_text)])
  | .col_gain raw p =>
    match p with
    | none =>
      .error (1, [(.stderr, .invalid_format "colour-gains" raw), (.stderr, .usage_text)])
    | some (r_value, b_value) =>
      if FVal.flt r_value (.val camera_valid_col_gain_range.1)
          || FVal.flt (.val camera_valid_col_gain_range.2) r_value
          || FVal.flt b_value (.val camera_valid_col_gain_range.1)
          || FVal.flt (.val camera_valid_col_gain_range.2) b_value then
        .error (1, [(.stderr, .out_of_range_pair "colour-gains"
                      camera_valid_col_gain_range.1 camera_valid_col_gain_range.2 raw),
                    (.stderr, .usage_text)])
      else
        .ok { s with cam_args :=
          { s.cam_args with colour_gain_r := r_value, colour_gain_b := b_value } }
  | .exp_mode m =>
    if is_camera_mode_valid m camera_valid_exposure_modes then
      .ok { s with cam_args := { s.cam_args with exposure_mode := some m } }
    else
      .error (1, [(.stderr, .invalid_mode "exposure" m), (.stderr, .usage_text)])
  | .brightness raw p =>
    match check_float_opt "brightness" camera_valid_brightness_range raw p with
    | .error e => .error e
    | .ok v => .ok { s with cam_args := { s.cam_args with brightness := v } }
  | .contrast raw p =>
    match check_float_opt "contrast" camera_valid_contrast_range raw p with
    | .error e => .error e
    | .ok v => .ok { s with cam_args := { s.cam_args with contrast := v } }
  | .saturation raw p =>
    match check_float_opt "saturation" camera_valid_saturation_range raw p with
    | .error e => .error e
    | .ok v => .ok { s with cam_args := { s.cam_args with saturation := v } }
  | .sharpness raw p =>
    match check_float_opt "sharpness" camera_valid_sharpness_range raw p with
    | .error e => .error e
    | .ok v => .ok { s with cam_args := { s.cam_args with sharpness := v } }
  | .dbg_rprt => .ok { s with cam_args := { s.cam_args with debug_report_enabled := true } }
  | .device d => .ok { s with cap_device := some d }
  | .image i => .ok { s with img_path := some i }
  | .slideshow d => .ok { s with slideshow_dir := some d }
  | .help => .error (0, [(.stderr, .usage_text)])
  | .unknown => .error (1, [(.stderr, .usage_text)])

/-- The whole `getopt_long` loop: options processed left to right, stopping
at the first early `return`. -/
def parseOpts : OptState → List CliOpt → Except (Nat × List Out) OptState
  | s, [] => .ok s
  | s, o :: rest =>
    match processOpt s o with
    | .error e => .error e
    | .ok s2 => parseOpts s2 rest

/-- The five video-source backends of `main.c` lines 421-434. -/
inductive Backend where
  | v4l2
  | libcamera
  | jpg
  | slideshow
  | test
  deriving DecidableEq

/-- The four process resources released at the `done:` label. -/
inductive Res where
  | fc
  | events
  | source
  | stream
  deriving DecidableEq

/-- One effective resource action: an acquisition that succeeded, or a
release of a previously acquired resource (the `done:` block calls every
release function unconditionally; releases of never-acquired, NULL handles
are no-ops by the destroy contract and are not recorded). -/
inductive Act where
  | acquire (r : Res)
  | release (r : Res)
  deriving DecidableEq

/-- Success or failure of each external collaborator call. -/
structure Env where
  fc_ok : Bool
  create_ok : Backend → Bool
  stream_ok : Bool

/-- Observable outcome of one run of `main` past a given point:
exit status, printed lines in order, the backend `create` functions
invoked in order, the control set passed to
`libcamera_source_set_controls` (if that call happened), the effective
resource trace, and whether the `done:` block was reached. -/
structure MainResult where
  exit : Nat
  out : List Out
  created : List Backend
  controls : Option camera_arguments
  trace : List Act
  teardown_ran : Bool
  deriving DecidableEq

/-- The backend chosen by the conditional chain of `main.c` lines 421-434. -/
def select_backend (s : OptState) : Backend :=
  if s.cap_device.isSome then .v4l2
  else if s.camera.isSome then .libcamera
  else if s.img_path.isSome then .jpg
  else if s.slideshow_dir.isSome then .slideshow
  else .test

/-- Spec-side definition, written from the spec's words for comparison with
`select_backend`: "priority order capture-device > camera-pipeline >
still-image > slideshow-directory > synthetic default; the first populated
intent wins", stated over the four presence flags. -/
def spec_priority_choice (cap cam img sld : Bool) : Backend :=
  if cap then .v4l2
  else if cam then .libcamera
  else if img then .jpg
  else if sld then .slideshow
  else .test

/-- `main.c` from the source-creation comment to the end (lines 420-470):
select and create the source, apply controls on the camera branch, create
the stream, run the loop, and fall through to the `done:` cleanup.  Entered
only after the conflict check passed; `fc` and the events context are
already acquired. -/
def createAndRun (s : OptState) (env : Env) : MainResult :=
  let b := select_backend s
  let ctl : Option camera_arguments :=
    if !s.cap_device.isSome && s.camera.isSome then some s.cam_args else none
  if env.create_ok b then
    if env.stream_ok then
      ⟨0, [], [b], ctl,
        [.acquire .fc, .acquire .events, .acquire .source, .acquire .stream,
         .release .stream, .release .source, .release .events, .release .fc], true⟩
    else
      ⟨1, [], [b], ctl,
        [.acquire .fc, .acquire .events, .acquire .source,
         .release .source, .release .events, .release .fc], true⟩
  else
    ⟨1, [], [b], ctl,
      [.acquire .fc, .acquire .events, .release .events, .release .fc], true⟩

/-- `main.c` lines 395-470, entered after the option loop with locals `s`:
resolve the function configuration (line 398; failure prints to stdout and
returns 1 with nothing acquired), run the conflict check (lines 404-408;
the conflicting combination prints two lines to stdout and returns 1
without reaching the `done:` cleanup), then create, run and tear down. -/
def runAfterParse (s : OptState) (env : Env) : MainResult :=
  if env.fc_ok then
    if s.cap_device.isSome && s.img_path.isSome then
      ⟨1, [(.stdout, .conflict_line1), (.stdout, .conflict_line2)], [], none,
        [.acquire .fc], false⟩
    else
      createAndRun s env
  else
    ⟨1, [(.stdout, .fc_fail)], [], none, [], false⟩

/-- The whole of `main`: the option loop, then everything after it. -/
def runMain (opts : List CliOpt) (env : Env) : MainResult :=
  match parseOpts initOptState opts with
  | .error e => ⟨e.1, e.2, [], none, [], false⟩
  | .ok s => runAfterParse s env

/-- The acquisitions of a trace, in order. -/
def acquiresOf : List Act → List Res
  | [] => []
  | .acquire r :: t => r :: acquiresOf t
  | .release _ :: t => acquiresOf t

/-- The releases of a trace, in order. -/
def releasesOf : List Act → List Res
  | [] => []
  | .release r :: t => r :: releasesOf t
  | .acquire _ :: t => releasesOf t

/-- Whether an option was accepted (no early `return` fired). -/
def accepts (e : Except (Nat × List Out) OptState) : Bool :=
  match e with
  | .ok _ => true
  | .error _ => false

/-- Modelled from the spec (the libcamera backend sources are not part of
this repository; only their header is): "a synonym (`sport` for
`exposure_mode`) maps to the canonical value `short` at the call site that
consumes it" — the value the backend consumes for a stored exposure mode. -/
def backend_exposure_consumed (m : String) : String :=
  if m == "sport" then "short" else m

/-- An environment in which every external collaborator succeeds. -/
def envAllOk : Env :=
  ⟨true, fun _ => true, true⟩

/-! ### Helper lemmas (shared) -/

/-- The linear scan of `is_camera_mode_valid` accepts exactly the literal
members of its allow-list. -/
theorem is_camera_mode_valid_iff (m : String) (l : List String) :
    is_camera_mode_valid m l = true ↔ m ∈ l := by
  simp [is_camera_mode_valid, List.any_eq_true]

/-- A finite value within the closed range passes `check_float_opt`. -/
theorem check_float_opt_within (n : String) (r : ℚ × ℚ) (raw : String) (q : ℚ)
    (h1 : r.1 ≤ q) (h2 : q ≤ r.2) :
    check_float_opt n r raw (some (.val q)) = .ok (.val q) := by
  have hq1 : ¬ (q < r.1) := not_lt.mpr h1
  have hq2 : ¬ (r.2 < q) := not_lt.mpr h2
  simp [check_float_opt, FVal.flt, hq1, hq2]

/-- A finite value strictly outside the closed range is rejected by
`check_float_opt` with the out-of-range diagnostic and the usage text. -/
theorem check_float_opt_out (n : String) (r : ℚ × ℚ) (raw : String) (q : ℚ)
    (h : q < r.1 ∨ r.2 < q) :
    check_float_opt n r raw (some (.val q)) =
      .error (1, [(.stderr, .out_of_range n r.1 r.2 (.val q)), (.stderr, .usage_text)]) := by
  rcases h with h | h <;> simp [check_float_opt, FVal.flt, h]

/-- A failed `sscanf` (fewer floats assigned than requested) is rejected by
`check_float_opt` with the invalid-format diagnostic and the usage text. -/
theorem check_float_opt_fmt (n : String) (r : ℚ × ℚ) (raw : String) :
    check_float_opt n r raw none =
      .error (1, [(.stderr, .invalid_format n raw), (.stderr, .usage_text)]) := rfl

/-- Every `check_float_opt` rejection carries exit status 1. -/
theorem check_float_opt_error_code (n : String) (r : ℚ × ℚ) (raw : String)
    (p : Option FVal) (e : Nat × List Out)
    (h : check_float_opt n r raw p = .error e) : e.1 = 1 := by
  cases p with
  | none =>
    simp [check_float_opt] at h
    simp [← h]
  | some v =>
    rw [check_float_opt] at h
    split at h
    · simp at h
      simp [← h]
    · simp at h

/-! ### C1 -/

/-- C1: if both a capture-device path and a still-image path were supplied
(the option loop having completed, and the function configuration having
resolved so that the check at `main.c` lines 404-408 is reached), the run
prints the two conflict lines — "Both capture device and still image
specified" / "Please specify only one" — exits with status 1, and no
backend create function is ever invoked. -/
theorem c1_conflict_rejection (opts : List CliOpt) (s : OptState) (env : Env)
    (hparse : parseOpts initOptState opts = .ok s)
    (hcap : s.cap_device.isSome = true) (himg : s.img_path.isSome = true)
    (hfc : env.fc_ok = true) :
    (runMain opts env).exit = 1 ∧
    (runMain opts env).out = [(.stdout, .conflict_line1), (.stdout, .conflict_line2)] ∧
    (runMain opts env).created = [] := by
  have h : runMain opts env = runAfterParse s env := by
    unfold runMain
    rw [hparse]
  rw [h]
  unfold runAfterParse
  rw [hfc, hcap, himg]
  simp

/-- C1 witness at the concrete command line `-d v -i i` with all
collaborators succeeding. -/
theorem c1_conflict_rejection_witness :
    (runMain [.device "v", .image "i"] envAllOk).exit = 1 ∧
    (runMain [.device "v", .image "i"] envAllOk).out =
      [(.stdout, .conflict_line1), (.stdout, .conflict_line2)] ∧
    (runMain [.device "v", .image "i"] envAllOk).created = [] :=
  c1_conflict_rejection [.device "v", .image "i"]
    { initOptState with cap_device := some "v", img_path := some "i" }
    envAllOk rfl rfl rfl rfl

/-! ### C2 -/

/-- C2: whenever the conflict rejection does not fire, exactly one backend
create function is invoked, namely the spec's first-populated-intent
priority choice (capture-device, camera-pipeline, still-image,
slideshow-directory, synthetic default); the code's selection chain equals
the spec-side priority function, and with no source intent at all the
synthetic test-pattern backend is selected. -/
theorem c2_backend_priority (s : OptState) (env : Env)
    (hfc : env.fc_ok = true)
    (hnc : (s.cap_device.isSome && s.img_path.isSome) = false) :
    (runAfterParse s env).created =
      [spec_priority_choice s.cap_device.isSome s.camera.isSome
        s.img_path.isSome s.slideshow_dir.isSome] ∧
    select_backend s =
      spec_priority_choice s.cap_device.isSome s.camera.isSome
        s.img_path.isSome s.slideshow_dir.isSome ∧
    select_backend initOptState = Backend.test := by
  refine ⟨?_, rfl, rfl⟩
  cases h1 : env.create_ok (select_backend s) <;> cases h2 : env.stream_ok <;>
    simp [runAfterParse, hfc, hnc, createAndRun, h1, h2] <;> rfl

/-- C2 witness: with no source intent at all and all collaborators
succeeding, the one created backend is the synthetic test pattern. -/
theorem c2_backend_priority_witness :
    (runAfterParse initOptState envAllOk).created =
      [spec_priority_choice initOptState.cap_device.isSome initOptState.camera.isSome
        initOptState.img_path.isSome initOptState.slideshow_dir.isSome] ∧
    select_backend initOptState =
      spec_priority_choice initOptState.cap_device.isSome initOptState.camera.isSome
        initOptState.img_path.isSome initOptState.slideshow_dir.isSome ∧
    select_backend initOptState = Backend.test :=
  c2_backend_priority initOptState envAllOk rfl rfl

/-! ### C3 -/

/-- Whether a single-float check succeeded. -/
def okF (e : Except (Nat × List Out) FVal) : Bool :=
  match e with
  | .ok _ => true
  | .error _ => false

/-- Acceptance of `--lens-position` reduces to its range check. -/
theorem accepts_lens_pos (s : OptState) (raw : String) (p : Option FVal) :
    accepts (processOpt s (.lens_pos raw p)) =
      okF (check_float_opt "lens-position" camera_valid_lens_pos_range raw p) := by
  cases h : check_float_opt "lens-position" camera_valid_lens_pos_range raw p <;>
    simp [processOpt, h, accepts, okF]

/-- Acceptance of `--brightness` reduces to its range check. -/
theorem accepts_brightness (s : OptState) (raw : String) (p : Option FVal) :
    accepts (processOpt s (.brightness raw p)) =
      okF (check_float_opt "brightness" camera_valid_brightness_range raw p) := by
  cases h : check_float_opt "brightness" camera_valid_brightness_range raw p <;>
    simp [processOpt, h, accepts, okF]

/-- Acceptance of `--contrast` reduces to its range check. -/
theorem accepts_contrast (s : OptState) (raw : String) (p : Option FVal) :
    accepts (processOpt s (.contrast raw p)) =
      okF (check_float_opt "contrast" camera_valid_contrast_range raw p) := by
  cases h : check_float_opt "contrast" camera_valid_contrast_range raw p <;>
    simp [processOpt, h, accepts, okF]

/-- Acceptance of `--saturation` reduces to its range check. -/
theorem accepts_saturation (s : OptState) (raw : String) (p : Option FVal) :
    accepts (processOpt s (.saturation raw p)) =
      okF (check_float_opt "saturation" camera_valid_saturation_range raw p) := by
  cases h : check_float_opt "saturation" camera_valid_saturation_range raw p <;>
    simp [processOpt, h, accepts, okF]

/-- Acceptance of `--sharpness` reduces to its range check. -/
theorem accepts_sharpness (s : OptState) (raw : String) (p : Option FVal) :
    accepts (processOpt s (.sharpness raw p)) =
      okF (check_float_opt "sharpness" camera_valid_sharpness_range raw p) := by
  cases h : check_float_opt "sharpness" camera_valid_sharpness_range raw p <;>
    simp [processOpt, h, accepts, okF]

/-- In-range values pass the single-float check. -/
theorem okF_within (n : String) (r : ℚ × ℚ) (raw : String) (q : ℚ)
    (h1 : r.1 ≤ q) (h2 : q ≤ r.2) :
    okF (check_float_opt n r raw (some (.val q))) = true := by
  rw [check_float_opt_within n r raw q h1 h2]
  rfl

/-- Out-of-range values fail the single-float check. -/
theorem okF_out (n : String) (r : ℚ × ℚ) (raw : String) (q : ℚ)
    (h : q < r.1 ∨ r.2 < q) :
    okF (check_float_opt n r raw (some (.val q))) = false := by
  rw [check_float_opt_out n r raw q h]
  rfl

/-- A failed sscanf fails the single-float check. -/
theorem okF_fmt (n : String) (r : ℚ × ℚ) (raw : String) :
    okF (check_float_opt n r raw none) = false := rfl

/-- Two in-range gains are stored by the `--colour-gains` case. -/
theorem col_gain_within (s : OptState) (raw : String) (r b : ℚ)
    (hr1 : 0 ≤ r) (hr2 : r ≤ 32) (hb1 : 0 ≤ b) (hb2 : b ≤ 32) :
    processOpt s (.col_gain raw (some (.val r, .val b))) =
      .ok { s with cam_args :=
        { s.cam_args with colour_gain_r := .val r, colour_gain_b := .val b } } := by
  have h1 : ¬ (r < (0 : ℚ)) := not_lt.mpr hr1
  have h2 : ¬ ((32 : ℚ) < r) := not_lt.mpr hr2
  have h3 : ¬ (b < (0 : ℚ)) := not_lt.mpr hb1
  have h4 : ¬ ((32 : ℚ) < b) := not_lt.mpr hb2
  simp [processOpt, FVal.flt, camera_valid_col_gain_range, h1, h2, h3, h4]

/-- An out-of-range red gain is rejected by the `--colour-gains` case. -/
theorem col_gain_out_r (s : OptState) (raw : String) (r b : ℚ)
    (h : r < 0 ∨ 32 < r) :
    accepts (processOpt s (.col_gain raw (some (.val r, .val b)))) = false := by
  rcases h with h | h <;>
    simp [processOpt, accepts, FVal.flt, camera_valid_col_gain_range, h]

/-- An out-of-range blue gain is rejected by the `--colour-gains` case. -/
theorem col_gain_out_b (s : OptState) (raw : String) (r b : ℚ)
    (h : b < 0 ∨ 32 < b) :
    accepts (processOpt s (.col_gain raw (some (.val r, .val b)))) = false := by
  rcases h with h | h <;>
    simp [processOpt, accepts, FVal.flt, camera_valid_col_gain_range, h]

/-- C3: every bounded numeric option accepts parsed values exactly at its
lower and upper bound, rejects any finite parsed value strictly outside its
closed range, rejects input from which sscanf could not assign the
required number of floats, and the colour-gains pair requires exactly two
floats, each within [0, 32]. -/
theorem c3_numeric_ranges (s : OptState) (raw : String) (q1 q2 q3 r1 b1 : ℚ)
    (hq1 : q1 < 0 ∨ 32 < q1) (hq2 : q2 < -1 ∨ 1 < q2) (hq3 : q3 < 0 ∨ 16 < q3)
    (hr1 : 0 ≤ r1 ∧ r1 ≤ 32) (hb1 : 0 ≤ b1 ∧ b1 ≤ 32) :
    (accepts (processOpt s (.lens_pos raw (some (.val 0)))) = true ∧
     accepts (processOpt s (.lens_pos raw (some (.val 32)))) = true ∧
     accepts (processOpt s (.lens_pos raw (some (.val q1)))) = false ∧
     accepts (processOpt s (.lens_pos raw none)) = false) ∧
    (accepts (processOpt s (.brightness raw (some (.val (-1))))) = true ∧
     accepts (processOpt s (.brightness raw (some (.val 1)))) = true ∧
     accepts (processOpt s (.brightness raw (some (.val q2)))) = false ∧
     accepts (processOpt s (.brightness raw none)) = false) ∧
    (accepts (processOpt s (.contrast raw (some (.val 0)))) = true ∧
     accepts (processOpt s (.contrast raw (some (.val 32)))) = true ∧
     accepts (processOpt s (.contrast raw (some (.val q1)))) = false ∧
     accepts (processOpt s (.contrast raw none)) = false) ∧
    (accepts (processOpt s (.saturation raw (some (.val 0)))) = true ∧
     accepts (processOpt s (.saturation raw (some (.val 32)))) = true ∧
     accepts (processOpt s (.saturation raw (some (.val q1)))) = false ∧
     accepts (processOpt s (.saturation raw none)) = false) ∧
    (accepts (processOpt s (.sharpness raw (some (.val 0)))) = true ∧
     accepts (processOpt s (.sharpness raw (some (.val 16)))) = true ∧
     accepts (processOpt s (.sharpness raw (some (.val q3)))) = false ∧
     accepts (processOpt s (.sharpness raw none)) = false) ∧
    (accepts (processOpt s (.col_gain raw (some (.val r1, .val b1)))) = true ∧
     accepts (processOpt s (.col_gain raw (some (.val 0, .val 32)))) = true ∧
     accepts (processOpt s (.col_gain raw (some (.val q1, .val b1)))) = false ∧
     accepts (processOpt s (.col_gain raw (some (.val r1, .val q1)))) = false ∧
     accepts (processOpt s (.col_gain raw none)) = false) := by
  refine ⟨⟨?_, ?_, ?_, ?_⟩, ⟨?_, ?_, ?_, ?_⟩, ⟨?_, ?_, ?_, ?_⟩, ⟨?_, ?_, ?_, ?_⟩,
    ⟨?_, ?_, ?_, ?_⟩, ⟨?_, ?_, ?_, ?_, ?_⟩⟩
  · rw [accepts_lens_pos]
    exact okF_within _ _ _ _ (by norm_num [camera_valid_lens_pos_range])
      (by norm_num [camera_valid_lens_pos_range])
  · rw [accepts_lens_pos]
    exact okF_within _ _ _ _ (by norm_num [camera_valid_lens_pos_range])
      (by norm_num [camera_valid_lens_pos_range])
  · rw [accepts_lens_pos]
    exact okF_out _ _ _ _ (by simpa [camera_valid_lens_pos_range] using hq1)
  · rw [accepts_lens_pos]
    exact okF_fmt _ _ _
  · rw [accepts_brightness]
    exact okF_within _ _ _ _ (by norm_num [camera_valid_brightness_range])
      (by norm_num [camera_valid_brightness_range])
  · rw [accepts_brightness]
    exact okF_within _ _ _ _ (by norm_num [camera_valid_brightness_range])
      (by norm_num [camera_valid_brightness_range])
  · rw [accepts_brightness]
    exact okF_out _ _ _ _ (by simpa [camera_valid_brightness_range] using hq2)
  · rw [accepts_brightness]
    exact okF_fmt _ _ _
  · rw [accepts_contrast]
    exact okF_within _ _ _ _ (by norm_num [camera_valid_contrast_range])
      (by norm_num [camera_valid_contrast_range])
  · rw [accepts_contrast]
    exact okF_within _ _ _ _ (by norm_num [camera_valid_contrast_range])
      (by norm_num [camera_valid_contrast_range])
  · rw [accepts_contrast]
    exact okF_out _ _ _ _ (by simpa [camera_valid_contrast_range] using hq1)
  · rw [accepts_contrast]
    exact okF_fmt _ _ _
  · rw [accepts_saturation]
    exact okF_within _ _ _ _ (by norm_num [camera_valid_saturation_range])
      (by norm_num [camera_valid_saturation_range])
  · rw [accepts_saturation]
    exact okF_within _ _ _ _ (by norm_num [camera_valid_saturation_range])
      (by norm_num [camera_valid_saturation_range])
  · rw [accepts_saturation]
    exact okF_out _ _ _ _ (by simpa [camera_valid_saturation_range] using hq1)
  · rw [accepts_saturation]
    exact okF_fmt _ _ _
  · rw [accepts_sharpness]
    exact okF_within _ _ _ _ (by norm_num [camera_valid_sharpness_range])
      (by norm_num [camera_valid_sharpness_range])
  · rw [accepts_sharpness]
    exact okF_within _ _ _ _ (by norm_num [camera_valid_sharpness_range])
      (by norm_num [camera_valid_sharpness_range])
  · rw [accepts_sharpness]
    exact okF_out _ _ _ _ (by simpa [camera_valid_sharpness_range] using hq3)
  · rw [accepts_sharpness]
    exact okF_fmt _ _ _
  · rw [col_gain_within s raw r1 b1 hr1.1 hr1.2 hb1.1 hb1.2]
    rfl
  · rw [col_gain_within s raw 0 32 (by norm_num) (by norm_num) (by norm_num) (by norm_num)]
    rfl
  · exact col_gain_out_r s raw q1 b1 hq1
  · exact col_gain_out_b s raw r1 q1 hq1
  · rfl

/-- C3 witness at concrete out-of-range and in-range inputs
(33 for the [0, 32] ranges, 2 for brightness, 17 for sharpness,
gains 1 and 2). -/
theorem c3_numeric_ranges_witness :
    accepts (processOpt initOptState (.lens_pos "x" (some (.val 33)))) = false ∧
    accepts (processOpt initOptState (.brightness "x" (some (.val 2)))) = false ∧
    accepts (processOpt initOptState (.sharpness "x" (some (.val 17)))) = false ∧
    accepts (processOpt initOptState (.col_gain "x" (some (.val 1, .val 2)))) = true := by
  have h := c3_numeric_ranges initOptState "x" 33 2 17 1 2 (by norm_num) (by norm_num)
    (by norm_num) (by norm_num) (by norm_num)
  exact ⟨h.1.2.2.1, h.2.1.2.2.1, h.2.2.2.2.1.2.2.1, h.2.2.2.2.2.1⟩

/-! ### C4 -/

/-- Acceptance of `--autofocus-range` equals its allow-list scan. -/
theorem accepts_af_range (s : OptState) (m : String) :
    accepts (processOpt s (.af_range m)) =
      is_camera_mode_valid m camera_valid_af_range_modes := by
  cases h : is_camera_mode_valid m camera_valid_af_range_modes <;>
    simp [processOpt, h, accepts]

/-- Acceptance of `--autofocus-speed` equals its allow-list scan. -/
theorem accepts_af_speed (s : OptState) (m : String) :
    accepts (processOpt s (.af_speed m)) =
      is_camera_mode_valid m camera_valid_af_speed_modes := by
  cases h : is_camera_mode_valid m camera_valid_af_speed_modes <;>
    simp [processOpt, h, accepts]

/-- Acceptance of `--awb` equals its allow-list scan. -/
theorem accepts_awb (s : OptState) (m : String) :
    accepts (processOpt s (.awb_opt m)) =
      is_camera_mode_valid m camera_valid_awb_modes := by
  cases h : is_camera_mode_valid m camera_valid_awb_modes <;>
    simp [processOpt, h, accepts]

/-- Acceptance of `--exposure` equals its allow-list scan. -/
theorem accepts_exposure (s : OptState) (m : String) :
    accepts (processOpt s (.exp_mode m)) =
      is_camera_mode_valid m camera_valid_exposure_modes := by
  cases h : is_camera_mode_valid m camera_valid_exposure_modes <;>
    simp [processOpt, h, accepts]

/-- C4: each enumerated option is accepted exactly when its string is a
literal, case-sensitive member of that option's fixed allow-list; an
accepted string is stored unchanged; `sport` is a literal member of the
exposure allow-list and is stored unchanged by the validator, while the
backend call site (modelled from the spec, as the libcamera backend source
is outside this repository) maps it to `short`. -/
theorem c4_enumerated_modes (s : OptState) (m : String) :
    (accepts (processOpt s (.af_range m)) = true ↔ m ∈ camera_valid_af_range_modes) ∧
    (accepts (processOpt s (.af_speed m)) = true ↔ m ∈ camera_valid_af_speed_modes) ∧
    (accepts (processOpt s (.awb_opt m)) = true ↔ m ∈ camera_valid_awb_modes) ∧
    (accepts (processOpt s (.exp_mode m)) = true ↔ m ∈ camera_valid_exposure_modes) ∧
    (m ∈ camera_valid_af_range_modes →
      processOpt s (.af_range m) =
        .ok { s with cam_args := { s.cam_args with af_range_mode := some m } }) ∧
    (m ∈ camera_valid_af_speed_modes →
      processOpt s (.af_speed m) =
        .ok { s with cam_args := { s.cam_args with af_speed_mode := some m } }) ∧
    (m ∈ camera_valid_awb_modes →
      processOpt s (.awb_opt m) =
        .ok { s with cam_args := { s.cam_args with awb_mode := some m } }) ∧
    (m ∈ camera_valid_exposure_modes →
      processOpt s (.exp_mode m) =
        .ok { s with cam_args := { s.cam_args with exposure_mode := some m } }) ∧
    "sport" ∈ camera_valid_exposure_modes ∧
    processOpt s (.exp_mode "sport") =
      .ok { s with cam_args := { s.cam_args with exposure_mode := some "sport" } } ∧
    backend_exposure_consumed "sport" = "short" := by
  refine ⟨?_, ?_, ?_, ?_, ?_, ?_, ?_, ?_, ?_, ?_, rfl⟩
  · rw [accepts_af_range]
    exact is_camera_mode_valid_iff m _
  · rw [accepts_af_speed]
    exact is_camera_mode_valid_iff m _
  · rw [accepts_awb]
    exact is_camera_mode_valid_iff m _
  · rw [accepts_exposure]
    exact is_camera_mode_valid_iff m _
  · intro hm
    simp [processOpt, (is_camera_mode_valid_iff m camera_valid_af_range_modes).mpr hm]
  · intro hm
    simp [processOpt, (is_camera_mode_valid_iff m camera_valid_af_speed_modes).mpr hm]
  · intro hm
    simp [processOpt, (is_camera_mode_valid_iff m camera_valid_awb_modes).mpr hm]
  · intro hm
    simp [processOpt, (is_camera_mode_valid_iff m camera_valid_exposure_modes).mpr hm]
  · decide
  · have hs : is_camera_mode_valid "sport" camera_valid_exposure_modes = true := by decide
    simp [processOpt, hs]

/-- C4 witness: the member string `macro` is accepted and stored unchanged;
`sport` is a literal exposure-list member stored unchanged by the
validator; the modelled backend call site maps it to `short`. -/
theorem c4_enumerated_modes_witness :
    processOpt initOptState (.af_range "macro") =
      .ok { initOptState with cam_args :=
        { initOptState.cam_args with af_range_mode := some "macro" } } ∧
    accepts (processOpt initOptState (.af_range "bogus")) = false ∧
    "sport" ∈ camera_valid_exposure_modes ∧
    backend_exposure_consumed "sport" = "short" := by
  have h := c4_enumerated_modes initOptState "macro"
  have h2 := c4_enumerated_modes initOptState "bogus"
  refine ⟨h.2.2.2.2.1 (by decide), ?_, h.2.2.2.2.2.2.2.2.1, h.2.2.2.2.2.2.2.2.2.2⟩
  have := h2.1
  cases ha : accepts (processOpt initOptState (.af_range "bogus"))
  · rfl
  · exact absurd (this.mp ha) (by decide)

/-! ### C5 -/

/-- C5 counterexample: the "unset" state is not a distinguishable tagged
third state — it is the float NaN itself.  Explicitly supplying a NaN token
to `--lens-position` is accepted (both IEEE range comparisons are false)
and stores a value with which the resulting state is exactly the initial
"all options omitted" state, so the program cannot distinguish this
explicit supply from omission. -/
theorem c5_nan_indistinguishable_counterexample :
    processOpt initOptState (.lens_pos "nan" (some FVal.nan)) = .ok initOptState := rfl

/-- C5 amended: omitting every option leaves the mode strings at null and
every numeric field at the NaN sentinel, a state that does differ from an
explicitly supplied 0.0; but the sentinel is a magic numeric value inside
the float domain, not a tagged variant, and an explicitly supplied NaN is
indistinguishable from omission. -/
theorem c5_unset_sentinel_amended :
    camera_arguments_opts.af_range_mode = none ∧
    camera_arguments_opts.af_speed_mode = none ∧
    camera_arguments_opts.awb_mode = none ∧
    camera_arguments_opts.exposure_mode = none ∧
    camera_arguments_opts.colour_gain_r = FVal.nan ∧
    camera_arguments_opts.colour_gain_b = FVal.nan ∧
    camera_arguments_opts.lens_position = FVal.nan ∧
    camera_arguments_opts.brightness = FVal.nan ∧
    camera_arguments_opts.contrast = FVal.nan ∧
    camera_arguments_opts.saturation = FVal.nan ∧
    camera_arguments_opts.sharpness = FVal.nan ∧
    camera_arguments_opts.debug_report_enabled = false ∧
    processOpt initOptState (.lens_pos "0.0" (some (.val 0))) =
      .ok { initOptState with cam_args :=
        { camera_arguments_opts with lens_position := .val 0 } } ∧
    decide (FVal.val 0 = FVal.nan) = false ∧
    processOpt initOptState (.brightness "nan" (some FVal.nan)) = .ok initOptState :=
  ⟨rfl, rfl, rfl, rfl, rfl, rfl, rfl, rfl, rfl, rfl, rfl, rfl, rfl, rfl, rfl⟩

/-! ### C6 -/

/-- C6: a parsed NaN (for example from the C99 `%f` token `nan`, whose
sscanf step is abstracted as the parse-result input) makes both range
comparisons false for every bound, so every bounded numeric option accepts
it and stores a field identical in role to the NaN "unset" sentinel: the
resulting state is exactly the initial omitted-everything state. -/
theorem c6_nan_bypasses_range_checks :
    (∀ q : ℚ, FVal.flt FVal.nan (FVal.val q) = false ∧
      FVal.flt (FVal.val q) FVal.nan = false) ∧
    processOpt initOptState (.lens_pos "nan" (some FVal.nan)) = .ok initOptState ∧
    processOpt initOptState (.brightness "nan" (some FVal.nan)) = .ok initOptState ∧
    processOpt initOptState (.contrast "nan" (some FVal.nan)) = .ok initOptState ∧
    processOpt initOptState (.saturation "nan" (some FVal.nan)) = .ok initOptState ∧
    processOpt initOptState (.sharpness "nan" (some FVal.nan)) = .ok initOptState ∧
    processOpt initOptState (.col_gain "nan,nan" (some (FVal.nan, FVal.nan))) =
      .ok initOptState :=
  ⟨fun _ => ⟨rfl, rfl⟩, rfl, rfl, rfl, rfl, rfl, rfl⟩

/-- C6 witness: the NaN comparisons instantiated at the bound 32. -/
theorem c6_nan_bypasses_range_checks_witness :
    FVal.flt FVal.nan (FVal.val 32) = false ∧
    FVal.flt (FVal.val 32) FVal.nan = false :=
  c6_nan_bypasses_range_checks.1 32

/-! ### C7 -/

/-- C7 counterexample: on the selection-conflict path, entered after the
function configuration was successfully resolved (acquired), `main`
returns without reaching the `done:` teardown, so the configuration is
never released — refuting "every path entered after the function
configuration is resolved releases it". -/
theorem c7_conflict_skips_teardown_counterexample :
    (runMain [.device "v", .image "i"] envAllOk).trace = [Act.acquire Res.fc] ∧
    (runMain [.device "v", .image "i"] envAllOk).teardown_ran = false :=
  ⟨rfl, rfl⟩

/-- C7 amended: on every termination path except the selection-conflict
path, the releases are exactly the reverse of the successful acquisitions
(stream, then source, then events, then the function configuration), each
acquired resource being released exactly once and never-acquired resources
being skipped; and whenever the function configuration resolved (and the
conflict path is excluded by the hypothesis), the teardown block runs and
releases it. -/
theorem c7_teardown_amended (s : OptState) (env : Env)
    (hconf : ¬ (env.fc_ok = true ∧ s.cap_device.isSome = true ∧
      s.img_path.isSome = true)) :
    releasesOf (runAfterParse s env).trace =
      (acquiresOf (runAfterParse s env).trace).reverse ∧
    (acquiresOf (runAfterParse s env).trace).Nodup ∧
    (env.fc_ok = true → (runAfterParse s env).teardown_ran = true ∧
      Res.fc ∈ releasesOf (runAfterParse s env).trace) := by
  cases hfc : env.fc_ok with
  | false => simp [runAfterParse, hfc, releasesOf, acquiresOf]
  | true =>
    have hcd : (s.cap_device.isSome && s.img_path.isSome) = false := by
      cases h1 : s.cap_device.isSome <;> cases h2 : s.img_path.isSome <;> simp_all
    cases h1 : env.create_ok (select_backend s) <;> cases h2 : env.stream_ok <;>
      simp [runAfterParse, hfc, hcd, createAndRun, h1, h2, releasesOf, acquiresOf]

/-- C7 witness: synthetic-default run with every collaborator succeeding. -/
theorem c7_teardown_amended_witness :
    releasesOf (runAfterParse initOptState envAllOk).trace =
      (acquiresOf (runAfterParse initOptState envAllOk).trace).reverse ∧
    (acquiresOf (runAfterParse initOptState envAllOk).trace).Nodup ∧
    (runAfterParse initOptState envAllOk).teardown_ran = true ∧
    Res.fc ∈ releasesOf (runAfterParse initOptState envAllOk).trace := by
  have h := c7_teardown_amended initOptState envAllOk (by decide)
  exact ⟨h.1, h.2.1, (h.2.2 rfl).1, (h.2.2 rfl).2⟩

/-! ### C8 -/

/-- C8 counterexample: the selection failure does not follow the claimed
diagnostic shape — the conflict message is printed by `printf` to standard
output (not the error stream), names neither the offending values nor the
valid set, and is not followed by the usage text. -/
theorem c8_selection_diag_counterexample :
    (runMain [.device "v", .image "i"] envAllOk).out =
      [(Chan.stdout, Msg.conflict_line1), (Chan.stdout, Msg.conflict_line2)] := rfl

/-- C8 amended: every validation failure prints, to the error stream, one
diagnostic naming the offending option and the invalid value (and, for
numeric range violations, the violated bounds) followed by the full usage
text (which lists every allow-list and range); the selection failure is
the exception: it prints two fixed lines to standard output, with no
usage text and no values. -/
theorem c8_diagnostics_amended (s sc : OptState) (env : Env)
    (m1 m2 m3 m4 raw : String) (q1 q2 q3 : ℚ)
    (hm1 : m1 ∉ camera_valid_af_range_modes)
    (hm2 : m2 ∉ camera_valid_af_speed_modes)
    (hm3 : m3 ∉ camera_valid_awb_modes)
    (hm4 : m4 ∉ camera_valid_exposure_modes)
    (hq1 : q1 < 0 ∨ 32 < q1) (hq2 : q2 < -1 ∨ 1 < q2) (hq3 : q3 < 0 ∨ 16 < q3)
    (hfc : env.fc_ok = true) (hcap : sc.cap_device.isSome = true)
    (himg : sc.img_path.isSome = true) :
    processOpt s (.af_range m1) =
      .error (1, [(.stderr, .invalid_mode "autofocus-range" m1), (.stderr, .usage_text)]) ∧
    processOpt s (.af_speed m2) =
      .error (1, [(.stderr, .invalid_mode "autofocus-speed" m2), (.stderr, .usage_text)]) ∧
    processOpt s (.awb_opt m3) =
      .error (1, [(.stderr, .invalid_mode "awb" m3), (.stderr, .usage_text)]) ∧
    processOpt s (.exp_mode m4) =
      .error (1, [(.stderr, .invalid_mode "exposure" m4), (.stderr, .usage_text)]) ∧
    processOpt s (.lens_pos raw none) =
      .error (1, [(.stderr, .invalid_format "lens-position" raw), (.stderr, .usage_text)]) ∧
    processOpt s (.brightness raw none) =
      .error (1, [(.stderr, .invalid_format "brightness" raw), (.stderr, .usage_text)]) ∧
    processOpt s (.contrast raw none) =
      .error (1, [(.stderr, .invalid_format "contrast" raw), (.stderr, .usage_text)]) ∧
    processOpt s (.saturation raw none) =
      .error (1, [(.stderr, .invalid_format "saturation" raw), (.stderr, .usage_text)]) ∧
    processOpt s (.sharpness raw none) =
      .error (1, [(.stderr, .invalid_format "sharpness" raw), (.stderr, .usage_text)]) ∧
    processOpt s (.col_gain raw none) =
      .error (1, [(.stderr, .invalid_format "colour-gains" raw), (.stderr, .usage_text)]) ∧
    processOpt s (.lens_pos raw (some (.val q1))) =
      .error (1, [(.stderr, .out_of_range "lens-position" 0 32 (.val q1)),
        (.stderr, .usage_text)]) ∧
    processOpt s (.brightness raw (some (.val q2))) =
      .error (1, [(.stderr, .out_of_range "brightness" (-1) 1 (.val q2)),
        (.stderr, .usage_text)]) ∧
    processOpt s (.contrast raw (some (.val q1))) =
      .error (1, [(.stderr, .out_of_range "contrast" 0 32 (.val q1)),
        (.stderr, .usage_text)]) ∧
    processOpt s (.saturation raw (some (.val q1))) =
      .error (1, [(.stderr, .out_of_range "saturation" 0 32 (.val q1)),
        (.stderr, .usage_text)]) ∧
    processOpt s (.sharpness raw (some (.val q3))) =
      .error (1, [(.stderr, .out_of_range "sharpness" 0 16 (.val q3)),
        (.stderr, .usage_text)]) ∧
    processOpt s (.col_gain raw (some (.val q1, .val 0))) =
      .error (1, [(.stderr, .out_of_range_pair "colour-gains" 0 32 raw),
        (.stderr, .usage_text)]) ∧
    (runAfterParse sc env).out =
      [(.stdout, .conflict_line1), (.stdout, .conflict_line2)] := by
  have e1 : is_camera_mode_valid m1 camera_valid_af_range_modes = false := by
    cases h : is_camera_mode_valid m1 camera_valid_af_range_modes
    · rfl
    · exact absurd ((is_camera_mode_valid_iff m1 _).mp h) hm1
  have e2 : is_camera_mode_valid m2 camera_valid_af_speed_modes = false := by
    cases h : is_camera_mode_valid m2 camera_valid_af_speed_modes
    · rfl
    · exact absurd ((is_camera_mode_valid_iff m2 _).mp h) hm2
  have e3 : is_camera_mode_valid m3 camera_valid_awb_modes = false := by
    cases h : is_camera_mode_valid m3 camera_valid_awb_modes
    · rfl
    · exact absurd ((is_camera_mode_valid_iff m3 _).mp h) hm3
  have e4 : is_camera_mode_valid m4 camera_valid_exposure_modes = false := by
    cases h : is_camera_mode_valid m4 camera_valid_exposure_modes
    · rfl
    · exact absurd ((is_camera_mode_valid_iff m4 _).mp h) hm4
  have f1 := check_float_opt_out "lens-position" ((0, 32) : ℚ × ℚ) raw q1
    (by simpa using hq1)
  have f2 := check_float_opt_out "brightness" ((-1, 1) : ℚ × ℚ) raw q2
    (by simpa using hq2)
  have f3 := check_float_opt_out "contrast" ((0, 32) : ℚ × ℚ) raw q1
    (by simpa using hq1)
  have f4 := check_float_opt_out "saturation" ((0, 32) : ℚ × ℚ) raw q1
    (by simpa using hq1)
  have f5 := check_float_opt_out "sharpness" ((0, 16) : ℚ × ℚ) raw q3
    (by simpa using hq3)
  refine ⟨by simp [processOpt, e1], by simp [processOpt, e2], by simp [processOpt, e3],
    by simp [processOpt, e4], rfl, rfl, rfl, rfl, rfl, rfl,
    by simp [processOpt, f1, camera_valid_lens_pos_range],
    by simp [processOpt, f2, camera_valid_brightness_range],
    by simp [processOpt, f3, camera_valid_contrast_range],
    by simp [processOpt, f4, camera_valid_saturation_range],
    by simp [processOpt, f5, camera_valid_sharpness_range],
    ?_, by simp [runAfterParse, hfc, hcap, himg]⟩
  rcases hq1 with h | h <;>
    simp [processOpt, FVal.flt, camera_valid_col_gain_range, h]

/-- C8 witness at concrete invalid inputs (`zzz` modes, 33, 2 and 17 for
the numeric ranges, conflict state `-d v -i i`). -/
theorem c8_diagnostics_amended_witness :
    processOpt initOptState (.af_range "zzz") =
      .error (1, [(.stderr, .invalid_mode "autofocus-range" "zzz"),
        (.stderr, .usage_text)]) ∧
    processOpt initOptState (.lens_pos "33" (some (.val 33))) =
      .error (1, [(.stderr, .out_of_range "lens-position" 0 32 (.val 33)),
        (.stderr, .usage_text)]) ∧
    (runAfterParse { initOptState with cap_device := some "v", img_path := some "i" }
      envAllOk).out = [(.stdout, .conflict_line1), (.stdout, .conflict_line2)] := by
  have h := c8_diagnostics_amended initOptState
    { initOptState with cap_device := some "v", img_path := some "i" } envAllOk
    "zzz" "zzz" "zzz" "zzz" "33" 33 2 17
    (by decide) (by decide) (by decide) (by decide)
    (by norm_num) (by norm_num) (by norm_num) rfl rfl rfl
  exact ⟨h.1, h.2.2.2.2.2.2.2.2.2.2.1, h.2.2.2.2.2.2.2.2.2.2.2.2.2.2.2.2⟩

/-! ### C9 -/

/-- C9: exit status 0 on help display and on clean shutdown; exit status 1
on resolution failure (function configuration unresolved), selection
conflict, backend-creation failure, stream-construction failure, and every
option rejection other than help; a loop-terminating early return from the
option loop propagates its status as the process exit status. -/
theorem c9_exit_codes (s : OptState) (env : Env) (o : CliOpt) (opts : List CliOpt)
    (e : Nat × List Out) :
    (env.fc_ok = false → (runAfterParse s env).exit = 1) ∧
    (env.fc_ok = true → s.cap_device.isSome = true → s.img_path.isSome = true →
      (runAfterParse s env).exit = 1) ∧
    (env.fc_ok = true → (s.cap_device.isSome && s.img_path.isSome) = false →
      env.create_ok (select_backend s) = false → (runAfterParse s env).exit = 1) ∧
    (env.fc_ok = true → (s.cap_device.isSome && s.img_path.isSome) = false →
      env.create_ok (select_backend s) = true → env.stream_ok = false →
      (runAfterParse s env).exit = 1) ∧
    (env.fc_ok = true → (s.cap_device.isSome && s.img_path.isSome) = false →
      env.create_ok (select_backend s) = true → env.stream_ok = true →
      (runAfterParse s env).exit = 0) ∧
    processOpt s CliOpt.help = .error (0, [(.stderr, .usage_text)]) ∧
    (processOpt s o = .error e → o = CliOpt.help ∨ e.1 = 1) ∧
    (parseOpts initOptState opts = .error e → (runMain opts env).exit = e.1) := by
  refine ⟨?_, ?_, ?_, ?_, ?_, rfl, ?_, ?_⟩
  · intro h
    simp [runAfterParse, h]
  · intro hfc hcap himg
    simp [runAfterParse, hfc, hcap, himg]
  · intro hfc hnc hcf
    simp [runAfterParse, hfc, hnc, createAndRun, hcf]
  · intro hfc hnc hct hst
    simp [runAfterParse, hfc, hnc, createAndRun, hct, hst]
  · intro hfc hnc hct hst
    simp [runAfterParse, hfc, hnc, createAndRun, hct, hst]
  · intro h
    cases o with
    | camera c => simp [processOpt] at h
    | af_range m =>
      right
      simp only [processOpt] at h
      split at h
      · simp at h
      · injection h with h2
        rw [← h2]
    | af_speed m =>
      right
      simp only [processOpt] at h
      split at h
      · simp at h
      · injection h with h2
        rw [← h2]
    | awb_opt m =>
      right
      simp only [processOpt] at h
      split at h
      · simp at h
      · injection h with h2
        rw [← h2]
    | exp_mode m =>
      right
      simp only [processOpt] at h
      split at h
      · simp at h
      · injection h with h2
        rw [← h2]
    | lens_pos raw p =>
      right
      simp only [processOpt] at h
      cases hc : check_float_opt "lens-position" camera_valid_lens_pos_range raw p with
      | error er =>
        rw [hc] at h
        simp at h
        rw [← h]
        exact check_float_opt_error_code _ _ _ _ _ hc
      | ok v =>
        rw [hc] at h
        simp at h
    | brightness raw p =>
      right
      simp only [processOpt] at h
      cases hc : check_float_opt "brightness" camera_valid_brightness_range raw p with
      | error er =>
        rw [hc] at h
        simp at h
        rw [← h]
        exact check_float_opt_error_code _ _ _ _ _ hc
      | ok v =>
        rw [hc] at h
        simp at h
    | contrast raw p =>
      right
      simp only [processOpt] at h
      cases hc : check_float_opt "contrast" camera_valid_contrast_range raw p with
      | error er =>
        rw [hc] at h
        simp at h
        rw [← h]
        exact check_float_opt_error_code _ _ _ _ _ hc
      | ok v =>
        rw [hc] at h
        simp at h
    | saturation raw p =>
      right
      simp only [processOpt] at h
      cases hc : check_float_opt "saturation" camera_valid_saturation_range raw p with
      | error er =>
        rw [hc] at h
        simp at h
        rw [← h]
        exact check_float_opt_error_code _ _ _ _ _ hc
      | ok v =>
        rw [hc] at h
        simp at h
    | col_gain raw p =>
      right
      cases p with
      | none =>
        simp only [processOpt] at h
        injection h with h2
        rw [← h2]
      | some rb =>
        obtain ⟨r_value, b_value⟩ := rb
        simp only [processOpt] at h
        split at h
        · injection h with h2
          rw [← h2]
        · simp at h
    | sharpness raw p =>
      right
      simp only [processOpt] at h
      cases hc : check_float_opt "sharpness" camera_valid_sharpness_range raw p with
      | error er =>
        rw [hc] at h
        simp at h
        rw [← h]
        exact check_float_opt_error_code _ _ _ _ _ hc
      | ok v =>
        rw [hc] at h
        simp at h
    | dbg_rprt => simp [processOpt] at h
    | device d => simp [processOpt] at h
    | image i => simp [processOpt] at h
    | slideshow d => simp [processOpt] at h
    | help => exact Or.inl rfl
    | unknown =>
      right
      simp only [processOpt] at h
      injection h with h2
      rw [← h2]
  · intro h
    unfold runMain
    rw [h]

/-- C9 witness: clean default run exits 0; the unknown-option rejection
carries status 1 and propagates as process exit status 1. -/
theorem c9_exit_codes_witness :
    (runAfterParse initOptState envAllOk).exit = 0 ∧
    (CliOpt.unknown = CliOpt.help ∨
      ((1 : Nat), ([(Chan.stderr, Msg.usage_text)] : List Out)).1 = 1) ∧
    (runMain [CliOpt.unknown] envAllOk).exit =
      ((1 : Nat), ([(Chan.stderr, Msg.usage_text)] : List Out)).1 := by
  have h := c9_exit_codes initOptState envAllOk CliOpt.unknown [CliOpt.unknown]
    (1, [(Chan.stderr, Msg.usage_text)])
  exact ⟨h.2.2.2.2.1 rfl rfl rfl rfl, h.2.2.2.2.2.2.1 rfl, h.2.2.2.2.2.2.2 rfl⟩

/-! ### C10 -/

/-- C10 counterexample: a camera-pipeline tuning option supplied without
any camera identifier is not rejected — the run completes cleanly with the
synthetic test backend and the control set is never handed to any backend. -/
theorem c10_tuning_without_camera_counterexample :
    (runMain [.brightness "0.0" (some (.val 0))] envAllOk).exit = 0 ∧
    (runMain [.brightness "0.0" (some (.val 0))] envAllOk).created = [Backend.test] ∧
    (runMain [.brightness "0.0" (some (.val 0))] envAllOk).controls = none :=
  ⟨rfl, rfl, rfl⟩

/-- C10 amended: each camera-pipeline tuning option is parsed and validated
regardless of whether a camera identifier was given (an in-range value is
accepted even with no camera); absent a camera identifier the stored value
is silently ignored — the control set reaches
`libcamera_source_set_controls` exactly when the function configuration
resolved, no capture device was given, and a camera identifier was given,
and what reaches it is the full parsed control set. -/
theorem c10_tuning_scope_amended (s : OptState) (env : Env) (raw : String) (q : ℚ)
    (hq1 : -1 ≤ q) (hq2 : q ≤ 1) :
    accepts (processOpt s (.brightness raw (some (.val q)))) = true ∧
    (runAfterParse s env).controls.isSome =
      (env.fc_ok && !s.cap_device.isSome && s.camera.isSome) ∧
    (env.fc_ok = true → s.cap_device = none → s.camera.isSome = true →
      (runAfterParse s env).controls = some s.cam_args) := by
  refine ⟨?_, ?_, ?_⟩
  · rw [accepts_brightness]
    exact okF_within _ _ _ _ (by simpa [camera_valid_brightness_range] using hq1)
      (by simpa [camera_valid_brightness_range] using hq2)
  · cases hfc : env.fc_ok with
    | false => simp [runAfterParse, hfc]
    | true =>
      cases hcd : s.cap_device.isSome with
      | true =>
        cases him : s.img_path.isSome with
        | true => simp [runAfterParse, hfc, hcd, him]
        | false =>
          cases h1 : env.create_ok (select_backend s) <;> cases h2 : env.stream_ok <;>
            simp [runAfterParse, hfc, hcd, him, createAndRun, h1, h2]
      | false =>
        cases h1 : env.create_ok (select_backend s) <;> cases h2 : env.stream_ok <;>
          cases hcam : s.camera.isSome <;>
          simp [runAfterParse, hfc, hcd, createAndRun, h1, h2, hcam]
  · intro hfc hcap hcam
    have hcd : s.cap_device.isSome = false := by rw [hcap]; rfl
    cases h1 : env.create_ok (select_backend s) <;> cases h2 : env.stream_ok <;>
      simp [runAfterParse, hfc, hcd, createAndRun, h1, h2, hcam]

/-- C10 witness: with a camera identifier and everything succeeding, the
full control set reaches the backend; brightness 0 is accepted. -/
theorem c10_tuning_scope_amended_witness :
    accepts (processOpt { initOptState with camera := some "c" }
      (.brightness "0" (some (.val 0)))) = true ∧
    (runAfterParse { initOptState with camera := some "c" } envAllOk).controls.isSome =
      (envAllOk.fc_ok && !(initOptState.cap_device).isSome &&
        (some "c" : Option String).isSome) ∧
    (runAfterParse { initOptState with camera := some "c" } envAllOk).controls =
      some ({ initOptState with camera := some "c" } : OptState).cam_args := by
  have h := c10_tuning_scope_amended { initOptState with camera := some "c" }
    envAllOk "0" 0 (by norm_num) (by norm_num)
  exact ⟨h.1, h.2.1, h.2.2 rfl rfl rfl⟩

end UvcGadget
